import Mathlib

/-!
Verification of the routing/host agent of the airbnb_planner_multiagent sample
(`host_agent/routing_agent.py`), as a shallow embedding in Lean 4.

Modelling conventions used throughout:

* Python strings are Lean `String`; `s.lower()` is `lowerStr`, `x in s`
  (substring test) is `strHas`, and Python truthiness of strings / optional
  values is made explicit (`truthyStr`, `truthyNat`, `pyOr`).
* `uuid.uuid4()` is modelled by a monotone counter ("supply"): each draw
  returns the current counter value and increments it.  This captures exactly
  the property the code relies on: every generated id is fresh (distinct from
  every previously generated id).  Context ids are kept as the raw counter
  value (`Nat`); ids that end up inside strings are rendered with `uuidStr`.
* Python dicts used as key/value stores (`task_ids_by_agent`,
  `context_ids_by_agent`, the feedback caches) are association lists with
  `List.lookup`; assignment is modelled by consing the new binding, which has
  the same lookup semantics as dict assignment.
* External collaborators (the remote A2A agents, the OpenAI chat-completion
  endpoint, the ERC-8004 adapter, `os.getenv`) are fields of an environment
  record `Env`; each is an arbitrary total function, so theorems quantify
  over every possible collaborator behaviour.
* Python exceptions that the routing code itself raises or catches are
  modelled with `Except PyExn`; collaborator operations that the source
  treats as `None`-on-failure (the ERC-8004 adapter methods) are
  `Option`-valued, matching their documented contracts.
-/

/-- Exception value: Python exception class name plus its message. -/
structure PyExn where
  typeName : String
  msg : String
  deriving DecidableEq, Repr

/-- Lowercasing, modelling Python `str.lower()` (ASCII, as used by the code).
Implemented over the character list so that it reduces in the kernel. -/
def lowerStr (s : String) : String :=
  String.mk (s.data.map Char.toLower)

/-- Whitespace strip, modelling Python `str.strip()`. -/
def stripStr (s : String) : String :=
  String.mk (((s.data.dropWhile Char.isWhitespace).reverse.dropWhile Char.isWhitespace).reverse)

/-- Prefix test on character lists (helper for the substring test). -/
def charsPrefix : List Char → List Char → Bool
  | [], _ => true
  | _ :: _, [] => false
  | a :: as, b :: bs => a == b && charsPrefix as bs

/-- Containment of `n` as a contiguous run inside the second list. -/
def charsIn (n : List Char) : List Char → Bool
  | [] => n.isEmpty
  | h :: t => charsPrefix n (h :: t) || charsIn n t

/-- Substring containment, modelling Python `needle in hay`. -/
def strHas (needle hay : String) : Bool :=
  charsIn needle.data hay.data

/-- Python truthiness for an optional string: `None` and `''` are falsy. -/
def truthyStr : Option String → Option String
  | some s => if s = "" then none else some s
  | none => none

/-- Python truthiness for an optional integer id: `None` and `0` are falsy. -/
def truthyNat : Option Nat → Option Nat
  | some n => if n = 0 then none else some n
  | none => none

/-- Python `a or b` on optional strings (left operand truthiness). -/
def pyOr (a b : Option String) : Option String :=
  match truthyStr a with
  | some x => some x
  | none => b

/-- Rendering of an optional string in an f-string: Python prints `None`. -/
def pyStrOpt : Option String → String
  | some s => s
  | none => "None"

/-- Rendering of a drawn uuid into a string-valued field. -/
def uuidStr (n : Nat) : String :=
  "uuid-" ++ Nat.repr n

/-- Python `repr` of one string (quotes, escaping elided). -/
def pyQuote (s : String) : String :=
  String.singleton (Char.ofNat 39) ++ s ++ String.singleton (Char.ofNat 39)

/-- Python `repr` of a list of strings, as an f-string renders `allowed_agents`. -/
def pyListRepr (l : List String) : String :=
  "[" ++ String.intercalate ", " (l.map pyQuote) ++ "]"

/-- Alias table of `RoutingAgent._resolve_agent_name` (routing_agent.py:318-326). -/
def aliasMap : List (String × String) :=
  [("seller agent", "Airbnb Agent - Finder"),
   ("finder", "Airbnb Agent - Finder"),
   ("search agent", "Airbnb Agent - Finder"),
   ("reserve", "Airbnb Agent - Reserve"),
   ("reservation agent", "Airbnb Agent - Reserve"),
   ("booking agent", "Airbnb Agent - Reserve"),
   ("weather", "Weather Agent")]

/-- Model of `RoutingAgent._resolve_agent_name` (routing_agent.py:302-334).
`names` is the key list of `self.remote_agent_connections` in insertion
order.  Tries, in order: falsy guard, exact match, case-insensitive match,
the alias table (only when the alias target is registered), then substring
containment in either direction. -/
def resolveAgentName (names : List String) (requested : String) : Option String :=
  if requested = "" then none
  else if names.contains requested then some requested
  else
    match names.find? (fun n => lowerStr n == lowerStr requested) with
    | some n => some n
    | none =>
      let normalized := stripStr (lowerStr requested)
      let aliasHit :=
        match List.lookup normalized aliasMap with
        | some target => if names.contains target then some target else none
        | none => none
      match aliasHit with
      | some t => some t
      | none =>
        names.find? (fun n => strHas normalized (lowerStr n) || strHas (lowerStr n) normalized)

/-- Resolution applied to a possibly-absent argument (Python passes `None`
through `args.get`, yielding `none`; `if not requested` catches it). -/
def resolveOpt (names : List String) : Option String → Option String
  | none => none
  | some a => resolveAgentName names a

/-- The three agent names the demo registers (finder, reserve, weather cards). -/
def demoNames : List String :=
  ["Airbnb Agent - Finder", "Airbnb Agent - Reserve", "Weather Agent"]

/-- A concrete task object returned by a remote agent (only its `id` field is
consumed by the routing agent, routing_agent.py:634). -/
structure A2ATask where
  id : String
  deriving DecidableEq, Repr

/-- Registry record returned by `Erc8004Adapter.get_agent_by_domain`. -/
structure AgentInfo where
  agent_id : Option Nat
  domain : String
  address : String
  deriving DecidableEq, Repr

/-- Result of `Erc8004Adapter.authorize_feedback_from_client` (`None` on
failure is the surrounding `Option`). -/
structure AuthResult where
  tx_hash : String
  feedback_auth_id : Option String
  client_address : Option String
  deriving DecidableEq, Repr

/-- Reply shapes of the remote agent collaborator for one `send_message` call
(routing_agent.py:616-630): a raised exception, a non-success response, a
success whose result is not a `A2ATask`, or a success carrying a concrete task. -/
inductive RemoteReply where
  | raised (e : PyExn)
  | nonSuccess
  | successNonTask
  | success (t : A2ATask)
  deriving DecidableEq, Repr

/-- Outbound message payload built by `send_message` (routing_agent.py:582-611).
`metadata_client_agent_id` is the `client_agent_id` metadata entry; `taskId`
and `contextId` are attached only when present/truthy. -/
structure Payload where
  text : String
  messageId : String
  metadata_client_agent_id : Option String
  taskId : Option String
  contextId : Option Nat
  deriving DecidableEq, Repr

/-- Per-conversation session-state dict (the `state` dict threaded through
`handle`, `send_message` and `submit_feedback`).  Dict fields that may be
absent are `Option`; the two correlation dicts are association lists. -/
structure SessionState where
  session_id : Option Nat
  session_active : Bool
  active_agent : Option String
  task_ids_by_agent : List (String × String)
  context_ids_by_agent : List (String × Nat)
  input_message_metadata_message_id : Option String
  payment_tx_hash : Option String
  deriving DecidableEq, Repr

/-- One exported feedback record (routing_agent.py:506-514). -/
structure FeedbackRecord where
  feedbackAuthId : Option String
  agentSkillId : String
  taskId : String
  contextId : String
  rating : Int
  domain : String
  notes : String
  proofOfPayment : Option String
  deriving DecidableEq, Repr

/-- Process-wide mutable fields of `RoutingAgent` used by the feedback
subsystem (routing_agent.py:77-80). -/
structure AgentState where
  authorized_feedback_agent_ids : List Nat
  authorized_feedback_agent_addr_by_id : List (Nat × String)
  authorized_feedback_auth_id_by_target_id : List (Nat × String)
  feedback_records : List FeedbackRecord
  deriving DecidableEq, Repr

/-- Parsed tool-call arguments (the result of `json.loads` on
`tc.function.arguments`; a missing key is `none`, malformed JSON yields the
all-`none` record, matching the `except` fallback at routing_agent.py:750-751). -/
structure ToolArgs where
  agent_name : Option String
  task : Option String
  rating : Option Int
  comment : Option String
  client_agent_name : Option String
  target_agent_name : Option String
  deriving DecidableEq, Repr

/-- One tool invocation requested by the LLM. -/
structure ToolCall where
  id : String
  name : String
  args : ToolArgs
  deriving DecidableEq, Repr

/-- One assistant response from the chat-completion collaborator:
`content` (may be null) and a possibly empty list of tool calls. -/
structure LLMResp where
  content : Option String
  toolCalls : List ToolCall
  deriving DecidableEq, Repr

/-- Return value of `submit_feedback` (routing_agent.py:433-440, 523-529). -/
inductive FeedbackReturn where
  | err (message : String)
  | ok (agentId : Nat) (domain : String) (rating : Int) (comment : String)
  deriving DecidableEq, Repr

/-- Return value of `_authorize_feedback` (routing_agent.py:364-417). -/
inductive AuthReturn where
  | err (message : String)
  | ok (clientAgentId targetAgentId : Nat) (txHash : String)
      (feedbackAuthId : Option String)
  deriving DecidableEq, Repr

/-- Content of a tool result, as fed back to the LLM and surfaced in the
`tool_response` event.  A structured stand-in for the JSON strings the code
produces. -/
inductive ToolContent where
  | taskResult (t : Option A2ATask)
  | feedbackResult (r : FeedbackReturn)
  | authorizeResult (r : AuthReturn)
  | error (msg : String)
  deriving DecidableEq, Repr

/-- One transcript entry of the routing loop. -/
inductive Msg where
  | system (content : String)
  | user (content : String)
  | assistant (content : String) (toolCalls : List ToolCall)
  | tool (tool_call_id : String) (name : String) (content : ToolContent)
  deriving DecidableEq, Repr

/-- One observable event yielded by `handle` (routing_agent.py:753, 769, 831). -/
inductive Event where
  | toolCall (name : String) (args : ToolArgs)
  | toolResponse (name : String) (content : ToolContent)
  | final (text : String)
  deriving DecidableEq, Repr

/-- The external world of the routing agent: the registry key list, the
remote-agent collaborator, the LLM collaborator, the ERC-8004 adapter and the
process environment.  Every field is an arbitrary total function, so theorems
quantify over all collaborator behaviours. -/
structure Env where
  names : List String
  descriptions : List (String × String)
  sendTask : String → Payload → RemoteReply
  llm : List Msg → LLMResp
  getAgentByDomain : String → Option AgentInfo
  authorizeFeedback : Nat → Nat → Option String → Option AuthResult
  addrOfKey : String → Option String
  getenv : String → Option String

/-- Outcome of one `send_message` call: the Python return value or the raised
exception, the outbound payload when one was built, and the updated session
state and uuid supply. -/
structure SendOutcome where
  result : Except PyExn (Option A2ATask)
  payload : Option Payload
  st : SessionState
  supply : Nat
  deriving Repr

/-- Context-id assignment step of `send_message` (routing_agent.py:567-571):
return the stored context id for `a`, or draw a fresh uuid and store it. -/
def ctxAssign (st : SessionState) (a : String) (supply : Nat) :
    Nat × SessionState × Nat :=
  match List.lookup a st.context_ids_by_agent with
  | some c => (c, st, supply)
  | none =>
      (supply,
       { st with context_ids_by_agent := (a, supply) :: st.context_ids_by_agent },
       supply + 1)

/-- Assistant (client) domain resolution chain shared by `send_message` and the
feedback paths (routing_agent.py:455-459, 595-599). -/
def assistantDomain (env : Env) : String :=
  (pyOr (env.getenv "ERC8004_AGENT_DOMAIN_ASSISTANT")
    (pyOr (env.getenv "ERC8004_AGENT_DOMAIN")
      (some "assistant.localhost:8083"))).getD ""

/-- Payload construction and state mutation of `send_message` up to the remote
call (routing_agent.py:548-611), for a successfully resolved name `rn`
requested as `a`.  Returns the payload, the mutated session state and the
advanced uuid supply. -/
def sendCore (env : Env) (a rn task : String) (st : SessionState) (supply : Nat) :
    Payload × SessionState × Nat :=
  let st1 := { st with active_agent := some rn }
  let task_id := List.lookup a st1.task_ids_by_agent
  let ca := ctxAssign st1 a supply
  let context_id := ca.1
  let st2 := ca.2.1
  let sup1 := ca.2.2
  let mid0 := st2.input_message_metadata_message_id.getD ""
  let message_id := if mid0 = "" then uuidStr sup1 else mid0
  let sup2 := if mid0 = "" then sup1 + 1 else sup1
  let meta_cid :=
    match env.getAgentByDomain (assistantDomain env) with
    | some info =>
        match truthyNat info.agent_id with
        | some cid => some (Nat.repr cid)
        | none => none
    | none => none
  let payload : Payload :=
    { text := task
      messageId := message_id
      metadata_client_agent_id := meta_cid
      taskId := truthyStr task_id
      contextId := some context_id }
  (payload, st2, sup2)

/-- Model of `RoutingAgent.send_message` (routing_agent.py:531-638).
An unresolvable name raises `ValueError` before any state mutation; the
`if not client` branch of the source is unreachable because every name
`_resolve_agent_name` returns is a key of `remote_agent_connections`.
A non-success or non-task reply returns `none` without touching the stored
task id; a success carrying a task persists its id under the raw requested
name `a`. -/
def sendMessage (env : Env) (agent_name : Option String) (task : String)
    (st : SessionState) (supply : Nat) : SendOutcome :=
  match resolveOpt env.names agent_name with
  | none =>
      { result := .error ⟨"ValueError", "Agent " ++ pyStrOpt agent_name ++ " not found"⟩
        payload := none, st := st, supply := supply }
  | some rn =>
      let a := agent_name.getD ""
      let pc := sendCore env a rn task st supply
      let payload := pc.1
      let st2 := pc.2.1
      let sup2 := pc.2.2
      match env.sendTask rn payload with
      | .raised e =>
          { result := .error e, payload := some payload, st := st2, supply := sup2 }
      | .nonSuccess =>
          { result := .ok none, payload := some payload, st := st2, supply := sup2 }
      | .successNonTask =>
          { result := .ok none, payload := some payload, st := st2, supply := sup2 }
      | .success t =>
          { result := .ok (some t)
            payload := some payload
            st := { st2 with task_ids_by_agent := (a, t.id) :: st2.task_ids_by_agent }
            supply := sup2 }

/-- Lookup in a string-keyed dict with a possibly-`None` Python key. -/
def lookupByOpt (m : List (String × String)) : Option String → Option String
  | some k => List.lookup k m
  | none => none

/-- Lookup in the context-id dict with a possibly-`None` Python key. -/
def ctxLookupByOpt (m : List (String × Nat)) : Option String → Option Nat
  | some k => List.lookup k m
  | none => none

/-- Resolved name with the `or ''` fallback used by the feedback paths
(routing_agent.py:356, 424). -/
def resolvedOrEmpty (env : Env) (a : Option String) : String :=
  (resolveOpt env.names a).getD ""

/-- The reserve-variant test: substring `reserve` of the lowercased resolved name. -/
def isReserveName (resolved : String) : Bool :=
  strHas "reserve" (lowerStr resolved)

/-- Target domain for the feedback paths (routing_agent.py:357-359, 426-428). -/
def feedbackTargetDomain (env : Env) (isres : Bool) : String :=
  if isres then (env.getenv "RESERVE_DOMAIN").getD "reserve.localhost:10002"
  else (env.getenv "FINDER_DOMAIN").getD "finder.localhost:10002"

/-- Server signing key selection in `submit_feedback` (routing_agent.py:464-466);
note there is no `ERC8004_PRIVATE_KEY` fallback on this path. -/
def serverPkFeedback (env : Env) (isres : Bool) : Option String :=
  if isres then env.getenv "ERC8004_PRIVATE_KEY_RESERVE"
  else env.getenv "ERC8004_PRIVATE_KEY_FINDER"

/-- Client address derivation from the assistant key
(routing_agent.py:477-482): only attempted when the env var is truthy. -/
def assistantAddr (env : Env) : String :=
  match truthyStr (env.getenv "ERC8004_PRIVATE_KEY_ASSISTANT") with
  | some k => (env.addrOfKey k).getD ""
  | none => ""

/-- Outcome of `submit_feedback`: its return value, the updated process state
and the number of calls made to the adapter authorization operation
(instrumentation counting invocations of `authorize_feedback_from_client`). -/
structure FeedbackOutcome where
  ret : FeedbackReturn
  ag : AgentState
  authCalls : Nat
  deriving Repr

/-- Inline authorization step of `submit_feedback` (routing_agent.py:448-487):
reuse the cached feedbackAuthId for this target id, otherwise resolve the
assistant client and call the adapter's authorization once, caching the
resulting id (and client address) only when one is returned. -/
def ensureAuth (env : Env) (ag : AgentState) (isres : Bool) (agent_id : Nat) :
    Option String × AgentState × Nat :=
  match List.lookup agent_id ag.authorized_feedback_auth_id_by_target_id with
  | some fid => (some fid, ag, 0)
  | none =>
      match env.getAgentByDomain (assistantDomain env) with
      | none => (none, ag, 0)
      | some cinfo =>
          match truthyNat cinfo.agent_id with
          | none => (none, ag, 0)
          | some cid =>
              match env.authorizeFeedback cid agent_id (serverPkFeedback env isres) with
              | none => (none, ag, 1)
              | some ares =>
                  match truthyStr ares.feedback_auth_id with
                  | none => (none, ag, 1)
                  | some fid =>
                      let addr0 := (pyOr ares.client_address (some cinfo.address)).getD ""
                      let addr := if addr0 = "" then assistantAddr env else addr0
                      let ag' :=
                        { ag with
                          authorized_feedback_auth_id_by_target_id :=
                            (agent_id, fid) :: ag.authorized_feedback_auth_id_by_target_id
                          authorized_feedback_agent_addr_by_id :=
                            if addr = "" then ag.authorized_feedback_agent_addr_by_id
                            else (agent_id, addr) :: ag.authorized_feedback_agent_addr_by_id
                          authorized_feedback_agent_ids :=
                            agent_id :: ag.authorized_feedback_agent_ids }
                      (some fid, ag', 1)

/-- Feedback record construction (routing_agent.py:492-520): CAIP-10 fallback
for a missing feedbackAuthId, task/context correlation ids looked up first by
the raw requested name then by the resolved name, rating scaled to a
percentage, optional proof of payment. -/
def buildRecord (env : Env) (ag : AgentState) (a : Option String)
    (resolved : String) (isres : Bool) (domain : String) (agent_id : Nat)
    (rating_int : Int) (comment : String) (st : SessionState)
    (fid : Option String) : FeedbackRecord :=
  let chain_id := (env.getenv "ERC8004_CHAIN_ID").getD "11155111"
  let fid2 :=
    match truthyStr fid with
    | some f => some f
    | none =>
        if ag.authorized_feedback_agent_ids.contains agent_id then
          let auth_addr := (List.lookup agent_id ag.authorized_feedback_agent_addr_by_id).getD ""
          if auth_addr = "" then fid
          else some ("eip155:" ++ chain_id ++ ":" ++ auth_addr)
        else fid
  let task_id := (pyOr (lookupByOpt st.task_ids_by_agent a)
      (pyOr (List.lookup resolved st.task_ids_by_agent) (some ""))).getD ""
  let context_id := (pyOr ((ctxLookupByOpt st.context_ids_by_agent a).map uuidStr)
      (pyOr ((List.lookup resolved st.context_ids_by_agent).map uuidStr) (some ""))).getD ""
  { feedbackAuthId := fid2
    agentSkillId := if isres then "reserve:v1" else "finder:v1"
    taskId := task_id
    contextId := context_id
    rating := max 0 (min 100 (rating_int * 20))
    domain := domain
    notes := comment
    proofOfPayment := truthyStr (pyOr st.payment_tx_hash (env.getenv "FEEDBACK_PAYMENT_TX")) }

/-- Model of `RoutingAgent.submit_feedback` (routing_agent.py:418-529).
Resolves the target by domain, clamps the rating into `[1, 5]`, ensures an
authorization (reusing the per-target cache), appends a `FeedbackRecord` and
returns a summary; it never raises. -/
def submitFeedback (env : Env) (ag : AgentState) (agent_name : Option String)
    (rating : Int) (comment : String) (st : SessionState) : FeedbackOutcome :=
  let resolved := resolvedOrEmpty env agent_name
  let isres := isReserveName resolved
  let domain := feedbackTargetDomain env isres
  match env.getAgentByDomain domain with
  | none =>
      ⟨.err ("Could not resolve agent by domain " ++ domain ++ " for feedback."), ag, 0⟩
  | some info =>
      match truthyNat info.agent_id with
      | none =>
          ⟨.err ("Could not resolve agent by domain " ++ domain ++ " for feedback."), ag, 0⟩
      | some agent_id =>
          let rating_int : Int := max 1 (min 5 rating)
          let (fid, ag1, calls) := ensureAuth env ag isres agent_id
          let record := buildRecord env ag1 agent_name resolved isres domain agent_id
            rating_int comment st fid
          let ag2 := { ag1 with feedback_records := ag1.feedback_records ++ [record] }
          ⟨.ok agent_id domain rating_int comment, ag2, calls⟩

/-- Model of `RoutingAgent._authorize_feedback` (routing_agent.py:350-417):
resolve target and client ids by domain, invoke the adapter authorization
signed with the server key (with the generic `ERC8004_PRIVATE_KEY` fallback),
and cache target id, client address and feedbackAuthId.  The returned triple
also counts adapter authorization invocations. -/
def authorizeFeedbackTool (env : Env) (ag : AgentState)
    (client_agent_name target_agent_name : Option String) :
    AuthReturn × AgentState × Nat :=
  let resolved := resolvedOrEmpty env target_agent_name
  let isres := isReserveName resolved
  let domain := feedbackTargetDomain env isres
  match truthyNat ((env.getAgentByDomain domain).bind AgentInfo.agent_id) with
  | none =>
      (.err ("Could not resolve target agent " ++ pyStrOpt target_agent_name), ag, 0)
  | some target_id =>
      match env.getAgentByDomain (assistantDomain env) with
      | none =>
          (.err ("Could not resolve client agent " ++ pyStrOpt client_agent_name), ag, 0)
      | some cinfo =>
          match truthyNat cinfo.agent_id with
          | none =>
              (.err ("Could not resolve client agent " ++ pyStrOpt client_agent_name), ag, 0)
          | some client_id =>
              let server_pk := pyOr (serverPkFeedback env isres) (env.getenv "ERC8004_PRIVATE_KEY")
              match env.authorizeFeedback client_id target_id server_pk with
              | none => (.err "Authorization transaction failed.", ag, 1)
              | some ares =>
                  let addr0 := (pyOr ares.client_address (some cinfo.address)).getD ""
                  let addr := if addr0 = "" then assistantAddr env else addr0
                  let fid := truthyStr ares.feedback_auth_id
                  let ag' :=
                    { ag with
                      authorized_feedback_agent_ids :=
                        target_id :: ag.authorized_feedback_agent_ids
                      authorized_feedback_agent_addr_by_id :=
                        if addr = "" then ag.authorized_feedback_agent_addr_by_id
                        else (target_id, addr) :: ag.authorized_feedback_agent_addr_by_id
                      authorized_feedback_auth_id_by_target_id :=
                        match fid with
                        | some f => (target_id, f) :: ag.authorized_feedback_auth_id_by_target_id
                        | none => ag.authorized_feedback_auth_id_by_target_id }
                  (.ok client_id target_id ares.tx_hash fid, ag', 1)

/-- Iterated `send_message` calls with a fixed requested name, threading the
session state and the uuid supply; returns the outcomes in call order. -/
def sendSeq (env : Env) (agent_name : Option String) (tasks : List String)
    (st : SessionState) (supply : Nat) : List SendOutcome × SessionState × Nat :=
  match tasks with
  | [] => ([], st, supply)
  | t :: ts =>
      let r := sendMessage env agent_name t st supply
      let rest := sendSeq env agent_name ts r.st r.supply
      (r :: rest.1, rest.2.1, rest.2.2)

/-- Single-quote character, kept out of string literals. -/
def squote : String :=
  String.singleton (Char.ofNat 39)

/-- The fixed system prompt (routing_agent.py:33-38). -/
def SYSTEM_PROMPT : String :=
  "You are an expert Routing Delegator. Your job is to route user requests " ++
  "to remote agents using the send_message tool, and then present the remote " ++
  "agent" ++ squote ++ "s result to the user. Rely on tools only; do not fabricate results. " ++
  "If the user wants to submit feedback after a reservation, use the leave_feedback tool."

/-- Model of `RoutingAgent._get_active_agent_name` (routing_agent.py:288-295). -/
def getActiveAgentName (st : SessionState) : String :=
  if st.session_id.isSome && st.session_active && st.active_agent.isSome then
    pyStrOpt st.active_agent
  else "None"

/-- Rendering of the available-agents summary list (name/description pairs);
stand-in for the Python list-of-dicts repr. -/
def summaryRepr (l : List (String × String)) : String :=
  "[" ++ String.intercalate ", "
    (l.map (fun p => "(name: " ++ p.1 ++ ", description: " ++ p.2 ++ ")")) ++ "]"

/-- Model of `RoutingAgent._build_system_prompt` (routing_agent.py:272-286). -/
def buildSystemPrompt (env : Env) (st : SessionState) : String :=
  SYSTEM_PROMPT ++ "\n\nAvailable Agents: " ++ summaryRepr env.descriptions ++
  "\nAgent Names (use exactly one of these in agent_name): " ++ pyListRepr env.names ++
  "\nCurrently Active Seller Agent: " ++ getActiveAgentName st

/-- Model of `RoutingAgent.ensure_session_state` (routing_agent.py:297-300):
assign a fresh session uuid when none is set, mark the session active. -/
def ensureSessionState (st : SessionState) (supply : Nat) : SessionState × Nat :=
  if st.session_active then (st, supply)
  else
    match st.session_id with
    | some sid => ({ st with session_id := some sid, session_active := true }, supply)
    | none => ({ st with session_id := some supply, session_active := true }, supply + 1)

/-- Error string built when a `send_message` dispatch raises
(routing_agent.py:771): exception class, message, and the allowed agent list. -/
def routingErrorMsg (e : PyExn) (allowed : List String) : String :=
  "Routing error: " ++ e.typeName ++ ": " ++ e.msg ++ " | Allowed agents: " ++
    pyListRepr allowed

/-- State threaded through tool dispatch inside one routing-loop step. -/
structure StepOut where
  events : List Event
  msgs : List Msg
  sess : SessionState
  ag : AgentState
  supply : Nat

/-- Dispatch of one tool call inside `handle` (routing_agent.py:746-829):
yield the `tool_call` event, execute the tool, append its result (or the
captured error) to the transcript and yield the `tool_response` event.
`submit_feedback` and `_authorize_feedback` return error dicts rather than
raising, so their `except` arms (routing_agent.py:792-800, 813-821) have no
reachable counterpart in the model. -/
def execOneTool (env : Env) (tc : ToolCall) (msgs : List Msg)
    (sess : SessionState) (ag : AgentState) (supply : Nat) : StepOut :=
  let callEv := Event.toolCall tc.name tc.args
  if tc.name = "send_message" then
    let r := sendMessage env tc.args.agent_name (tc.args.task.getD "") sess supply
    match r.result with
    | .ok res =>
        let c := ToolContent.taskResult res
        ⟨[callEv, .toolResponse tc.name c], msgs ++ [.tool tc.id tc.name c], r.st, ag, r.supply⟩
    | .error e =>
        let c := ToolContent.error (routingErrorMsg e env.names)
        ⟨[callEv, .toolResponse tc.name c], msgs ++ [.tool tc.id tc.name c], r.st, ag, r.supply⟩
  else if tc.name = "leave_feedback" then
    let o := submitFeedback env ag tc.args.agent_name (tc.args.rating.getD 5)
      (tc.args.comment.getD "") sess
    let c := ToolContent.feedbackResult o.ret
    ⟨[callEv, .toolResponse tc.name c], msgs ++ [.tool tc.id tc.name c], sess, o.ag, supply⟩
  else if tc.name = "authorize_feedback" then
    let o := authorizeFeedbackTool env ag tc.args.client_agent_name tc.args.target_agent_name
    let c := ToolContent.authorizeResult o.1
    ⟨[callEv, .toolResponse tc.name c], msgs ++ [.tool tc.id tc.name c], sess, o.2.1, supply⟩
  else
    ⟨[callEv, .toolResponse tc.name (.error "Unknown tool")],
     msgs ++ [.tool tc.id tc.name (.error ("Unknown tool: " ++ tc.name))], sess, ag, supply⟩

/-- Sequential dispatch of the tool calls of one LLM response
(routing_agent.py:746: `for tc in tool_calls`). -/
def execTools (env : Env) (tcs : List ToolCall) (msgs : List Msg)
    (sess : SessionState) (ag : AgentState) (supply : Nat) : StepOut :=
  match tcs with
  | [] => ⟨[], msgs, sess, ag, supply⟩
  | tc :: rest =>
      let s1 := execOneTool env tc msgs sess ag supply
      let s2 := execTools env rest s1.msgs s1.sess s1.ag s1.supply
      ⟨s1.events ++ s2.events, s2.msgs, s2.sess, s2.ag, s2.supply⟩

/-- Result of a `handle` run: event stream, final text, updated states, and
the number of LLM (chat-completion) calls made. -/
structure RunOut where
  events : List Event
  finalText : String
  sess : SessionState
  ag : AgentState
  supply : Nat
  llmCalls : Nat

/-- The fixed step budget of the routing loop (routing_agent.py:724). -/
def max_steps : Nat := 6

/-- The routing loop body (routing_agent.py:725-829), with the remaining step
budget as fuel, mirroring `for _ in range(max_steps)`.  A response with zero
tool calls breaks out with its text as the final answer; otherwise all its
tool calls are dispatched in order and the loop recurses.  Exhausting the
fuel leaves the initial empty final text (routing_agent.py:723). -/
def routeLoop (env : Env) (fuel : Nat) (msgs : List Msg)
    (sess : SessionState) (ag : AgentState) (supply : Nat) : RunOut :=
  match fuel with
  | 0 => ⟨[], "", sess, ag, supply, 0⟩
  | fuel + 1 =>
      let resp := env.llm msgs
      match resp.toolCalls with
      | [] => ⟨[], resp.content.getD "", sess, ag, supply, 1⟩
      | _ :: _ =>
          let msgs1 := msgs ++ [.assistant (resp.content.getD "") resp.toolCalls]
          let s := execTools env resp.toolCalls msgs1 sess ag supply
          let r := routeLoop env fuel s.msgs s.sess s.ag s.supply
          ⟨s.events ++ r.events, r.finalText, r.sess, r.ag, r.supply, r.llmCalls + 1⟩

/-- Model of `RoutingAgent.handle` (routing_agent.py:640-831): ensure the
session, build the initial transcript, run the bounded routing loop and end
the event stream with the single `final` event.  The card refresh
(routing_agent.py:646) does not change a non-empty registry, which is fixed
in `env.names`. -/
def handleRun (env : Env) (user_text : String) (sess : SessionState)
    (ag : AgentState) (supply : Nat) : RunOut :=
  let p := ensureSessionState sess supply
  let msgs0 := [Msg.system (buildSystemPrompt env p.1), Msg.user user_text]
  let r := routeLoop env max_steps msgs0 p.1 ag p.2
  { r with events := r.events ++ [.final r.finalText] }

/-- Stream-shape checker: a sequence of `tool_call` events each immediately
followed by one `tool_response` with the same tool name, ended by exactly one
`final` event in last position. -/
def okEvents : List Event → Bool
  | [.final _] => true
  | .toolCall n _ :: .toolResponse m _ :: rest => n == m && okEvents rest
  | _ => false

/-- A fresh session state (the empty `state` dict before the first call). -/
def initSession : SessionState :=
  { session_id := none, session_active := false, active_agent := none
    task_ids_by_agent := [], context_ids_by_agent := []
    input_message_metadata_message_id := none, payment_tx_hash := none }

/-- The `RoutingAgent` process state right after `__init__`. -/
def initAgentState : AgentState :=
  { authorized_feedback_agent_ids := []
    authorized_feedback_agent_addr_by_id := []
    authorized_feedback_auth_id_by_target_id := []
    feedback_records := [] }

/-- A minimal concrete environment used by witnesses: the demo registry, a
tool-free LLM answer, and failing/empty collaborators. -/
def trivEnv : Env :=
  { names := demoNames
    descriptions := []
    sendTask := fun _ _ => .nonSuccess
    llm := fun _ => ⟨some "done", []⟩
    getAgentByDomain := fun _ => none
    authorizeFeedback := fun _ _ _ => none
    addrOfKey := fun _ => none
    getenv := fun _ => none }

/-- Environment whose identity registry resolves every domain to agent id 1. -/
def feedbackEnv : Env :=
  { trivEnv with getAgentByDomain := fun _ => some ⟨some 1, "d", "0xCAFE"⟩ }

/-- Environment whose remote collaborator always returns the task `T1`. -/
def taskEnv : Env :=
  { trivEnv with sendTask := fun _ _ => .success ⟨"T1"⟩ }

/-- Invariant maintained by the uuid supply: every stored context id was drawn
from an earlier counter value, and stored context ids are pairwise distinct.
Both hold for the empty store of a fresh session and are preserved by
`send_message`, since each assignment stores the current counter and advances
it. -/
def CtxInv (st : SessionState) (sup : Nat) : Prop :=
  (∀ p ∈ st.context_ids_by_agent, p.2 < sup) ∧
  (st.context_ids_by_agent.map Prod.snd).Nodup

/-- Environment whose remote echoes a task id depending on the inbound
payload: `T1` when no task id is attached, `T2` otherwise.  The A2A contract
does not force a remote agent to keep returning the first task id. -/
def echoEnv : Env :=
  { trivEnv with
    sendTask := fun _ p => .success ⟨if p.taskId = none then "T1" else "T2"⟩ }

/-- Session state in which task id `T1` is already stored for `Finder`. -/
def stT1 : SessionState :=
  { initSession with task_ids_by_agent := [("Finder", "T1")] }

/-- Environment in which the identity registry resolves every domain to agent
id 1 but the authorization transaction always fails. -/
def authFailEnv : Env :=
  { trivEnv with
    getAgentByDomain := fun _ => some ⟨some 1, "d", "0xA"⟩
    authorizeFeedback := fun _ _ _ => none }

/-- Environment in which the identity registry resolves every domain to agent
id 1 and authorization succeeds with feedbackAuthId `FID`. -/
def authOkEnv : Env :=
  { trivEnv with
    getAgentByDomain := fun _ => some ⟨some 1, "d", "0xA"⟩
    authorizeFeedback := fun _ _ _ => some ⟨"0xTX", some "FID", some "0xA"⟩ }

/-! Helper lemmas about the event stream of the routing loop. -/

/-- Each single tool dispatch yields exactly its `tool_call` event immediately
followed by one `tool_response` event with the same tool name, and appends one
matching tool message to the transcript. -/
theorem execOneTool_shape (env : Env) (tc : ToolCall) (msgs : List Msg)
    (sess : SessionState) (ag : AgentState) (sup : Nat) :
    ∃ c, (execOneTool env tc msgs sess ag sup).events =
        [Event.toolCall tc.name tc.args, Event.toolResponse tc.name c] ∧
      ∃ c2, (execOneTool env tc msgs sess ag sup).msgs =
        msgs ++ [Msg.tool tc.id tc.name c2] := by
  unfold execOneTool
  dsimp only []
  split
  · split <;> exact ⟨_, rfl, _, rfl⟩
  · split
    · exact ⟨_, rfl, _, rfl⟩
    · split
      · exact ⟨_, rfl, _, rfl⟩
      · exact ⟨_, rfl, _, rfl⟩

/-- Prepending one call/response pair with matching names preserves the
stream-shape check. -/
theorem okEvents_pair (n : String) (args : ToolArgs) (c : ToolContent)
    (rest : List Event) :
    okEvents (Event.toolCall n args :: Event.toolResponse n c :: rest) =
      okEvents rest := by
  simp [okEvents]

/-- The events of a tool-dispatch run form call/response pairs: appending them
in front of any well-shaped tail keeps the stream well shaped. -/
theorem execTools_events_ok (env : Env) (tcs : List ToolCall) :
    ∀ (msgs : List Msg) (sess : SessionState) (ag : AgentState) (sup : Nat)
      (rest : List Event), okEvents rest = true →
      okEvents ((execTools env tcs msgs sess ag sup).events ++ rest) = true := by
  induction tcs with
  | nil => intro msgs sess ag sup rest h; simpa [execTools]
  | cons tc ts ih =>
      intro msgs sess ag sup rest h
      obtain ⟨c, hc, -⟩ := execOneTool_shape env tc msgs sess ag sup
      simp only [execTools, List.append_assoc]
      rw [hc]
      simp only [List.cons_append, List.nil_append, okEvents_pair]
      exact ih _ _ _ _ _ h

/-- The routing loop's own events keep any well-shaped tail well shaped. -/
theorem routeLoop_events_ok (env : Env) (fuel : Nat) :
    ∀ (msgs : List Msg) (sess : SessionState) (ag : AgentState) (sup : Nat)
      (rest : List Event), okEvents rest = true →
      okEvents ((routeLoop env fuel msgs sess ag sup).events ++ rest) = true := by
  induction fuel with
  | zero => intro msgs sess ag sup rest h; simpa [routeLoop]
  | succ f ih =>
      intro msgs sess ag sup rest h
      unfold routeLoop
      cases htc : (env.llm msgs).toolCalls with
      | nil => simp only [htc]; simpa
      | cons tc ts =>
          simp only [htc, List.append_assoc]
          exact execTools_events_ok env (tc :: ts) _ _ _ _ _ (ih _ _ _ _ _ h)

/-- The loop makes at most as many LLM calls as it has fuel. -/
theorem routeLoop_llmCalls_le (env : Env) (fuel : Nat) :
    ∀ (msgs : List Msg) (sess : SessionState) (ag : AgentState) (sup : Nat),
      (routeLoop env fuel msgs sess ag sup).llmCalls ≤ fuel := by
  induction fuel with
  | zero => intro msgs sess ag sup; simp [routeLoop]
  | succ f ih =>
      intro msgs sess ag sup
      unfold routeLoop
      cases htc : (env.llm msgs).toolCalls with
      | nil => simp only [htc]; simp
      | cons tc ts => simp only [htc]; simpa using Nat.succ_le_succ (ih _ _ _ _)




/-! Claims about C10. -/

/-- C10: in every event stream produced by `handle`, each `tool_call` event is
immediately followed by exactly one `tool_response` event with the same tool
name (never another `tool_call` or a `final` in between), and the stream
contains exactly one `final` event, in last position — `okEvents` checks
precisely this shape. -/
theorem handle_event_stream_shape (env : Env) (user_text : String)
    (sess : SessionState) (ag : AgentState) (supply : Nat) :
    okEvents (handleRun env user_text sess ag supply).events = true := by
  unfold handleRun
  dsimp only []
  exact routeLoop_events_ok env max_steps _ _ _ _ _ (by simp [okEvents])

/-! Claims about C1. -/

/-- C1: every `handle` invocation makes at most `max_steps = 6` LLM calls and
always ends its event stream with a single `final` event; an LLM response
with zero tool calls terminates the loop at once with that response's text as
the final answer, and an exhausted budget terminates with the (empty) final
text accumulated so far.  Termination itself is structural: the loop is
literally bounded by its fuel. -/
theorem handle_step_budget_and_final (env : Env) (user_text : String)
    (sess : SessionState) (ag : AgentState) (supply : Nat) :
    (handleRun env user_text sess ag supply).llmCalls ≤ max_steps ∧
    (handleRun env user_text sess ag supply).events.getLast? =
      some (Event.final (handleRun env user_text sess ag supply).finalText) ∧
    (∀ (fuel : Nat) (msgs : List Msg) (s : SessionState) (a : AgentState) (sup : Nat),
      (env.llm msgs).toolCalls = [] →
      routeLoop env (fuel + 1) msgs s a sup =
        ⟨[], (env.llm msgs).content.getD "", s, a, sup, 1⟩) ∧
    (∀ (msgs : List Msg) (s : SessionState) (a : AgentState) (sup : Nat),
      (routeLoop env 0 msgs s a sup).finalText = "") := by
  refine ⟨?_, ?_, ?_, ?_⟩
  · unfold handleRun
    dsimp only []
    exact routeLoop_llmCalls_le env max_steps _ _ _ _
  · unfold handleRun
    dsimp only []
    exact List.getLast?_concat _
  · intro fuel msgs s a sup h
    unfold routeLoop
    simp only [h]
  · intro msgs s a sup
    rfl

/-- Witness for C1: a provider that immediately answers without tool calls
terminates the loop in one step with that answer. -/
theorem handle_step_budget_and_final_witness :
    routeLoop trivEnv 1 [] initSession initAgentState 0 =
      ⟨[], "done", initSession, initAgentState, 0, 1⟩ :=
  (handle_step_budget_and_final trivEnv "hi" initSession initAgentState 0).2.2.1
    0 [] initSession initAgentState 0 rfl

/-! Claims about C5. -/

/-- C5: no tool failure aborts the routing loop.  Every dispatched tool call
produces exactly one `tool_response` (its result or the captured error)
appended to the transcript; in particular an unresolvable `agent_name` in
`send_message` yields the agent-not-found error whose message ends with the
rendered list of allowed agent names; and the `handle` stream still always
closes with its `final` event. -/
theorem tool_errors_captured (env : Env) (tc : ToolCall) (msgs : List Msg)
    (sess : SessionState) (ag : AgentState) (sup : Nat) :
    (∃ c, (execOneTool env tc msgs sess ag sup).events =
        [Event.toolCall tc.name tc.args, Event.toolResponse tc.name c] ∧
      ∃ c2, (execOneTool env tc msgs sess ag sup).msgs =
        msgs ++ [Msg.tool tc.id tc.name c2]) ∧
    (tc.name = "send_message" → resolveOpt env.names tc.args.agent_name = none →
      (execOneTool env tc msgs sess ag sup).events =
        [Event.toolCall tc.name tc.args,
         Event.toolResponse tc.name (.error (routingErrorMsg
           ⟨"ValueError", "Agent " ++ pyStrOpt tc.args.agent_name ++ " not found"⟩
           env.names))] ∧
      (execOneTool env tc msgs sess ag sup).msgs =
        msgs ++ [Msg.tool tc.id tc.name (.error (routingErrorMsg
           ⟨"ValueError", "Agent " ++ pyStrOpt tc.args.agent_name ++ " not found"⟩
           env.names))] ∧
      ∃ pre, routingErrorMsg
          ⟨"ValueError", "Agent " ++ pyStrOpt tc.args.agent_name ++ " not found"⟩
          env.names = pre ++ pyListRepr env.names) ∧
    (∀ u, (handleRun env u sess ag sup).events.getLast? =
      some (Event.final (handleRun env u sess ag sup).finalText)) := by
  refine ⟨execOneTool_shape env tc msgs sess ag sup, ?_, ?_⟩
  · intro hname hres
    have hsend : sendMessage env tc.args.agent_name (tc.args.task.getD "") sess sup =
        { result := .error ⟨"ValueError",
            "Agent " ++ pyStrOpt tc.args.agent_name ++ " not found"⟩
          payload := none, st := sess, supply := sup } := by
      unfold sendMessage
      simp only [hres]
    refine ⟨?_, ?_, "Routing error: " ++ "ValueError" ++ ": " ++
      ("Agent " ++ pyStrOpt tc.args.agent_name ++ " not found") ++
      " | Allowed agents: ", rfl⟩ <;>
    · unfold execOneTool
      simp only [hname, if_pos, hsend]
  · intro u
    unfold handleRun
    dsimp only []
    exact List.getLast?_concat _

/-- Witness for C5: dispatching `send_message` with the unknown agent name
`nonexistent` in the demo registry is captured as a structured error response
carrying the allowed-agents list. -/
theorem tool_errors_captured_witness :
    (execOneTool trivEnv
        ⟨"call1", "send_message",
          ⟨some "nonexistent", some "t", none, none, none, none⟩⟩
        [] initSession initAgentState 0).events =
      [Event.toolCall "send_message"
        ⟨some "nonexistent", some "t", none, none, none, none⟩,
       Event.toolResponse "send_message" (.error (routingErrorMsg
         ⟨"ValueError", "Agent " ++ pyStrOpt (some "nonexistent") ++ " not found"⟩
         trivEnv.names))] :=
  ((tool_errors_captured trivEnv
      ⟨"call1", "send_message",
        ⟨some "nonexistent", some "t", none, none, none, none⟩⟩
      [] initSession initAgentState 0).2.1 rfl (by decide)).1

/-! Claims about C6. -/

/-- Resolution through the alias table: when the requested name is nonempty,
matches no registered name even case-insensitively, and its normalization is
an alias of a registered canonical name, `_resolve_agent_name` returns that
canonical name. -/
theorem resolve_via_alias (names : List String) (req canonical : String)
    (hreq : req ≠ "")
    (halias : List.lookup (stripStr (lowerStr req)) aliasMap = some canonical)
    (hmem : canonical ∈ names)
    (hno : ∀ n ∈ names, lowerStr n ≠ lowerStr req) :
    resolveAgentName names req = some canonical := by
  have hreqmem : req ∉ names := fun h => (hno req h) rfl
  have hc : names.contains canonical = true := List.elem_iff.mpr hmem
  unfold resolveAgentName
  rw [if_neg hreq]
  rw [if_neg (by simpa using hreqmem)]
  rw [List.find?_eq_none.mpr (fun n hn => by simpa using hno n hn)]
  simp [halias, hc, hmem]

/-- C6: whenever the finder agent is registered under its canonical name
`Airbnb Agent - Finder` (and no other registered name collides with the
requested spellings, as in the demo registry), resolving the requested names
`Finder`, `finder` and `seller agent` all yield that same canonical name —
via the alias table after the exact and case-insensitive passes fail. -/
theorem resolve_aliases_canonical (names : List String)
    (hmem : "Airbnb Agent - Finder" ∈ names)
    (hno : ∀ n ∈ names, lowerStr n ≠ "finder" ∧ lowerStr n ≠ "seller agent") :
    resolveAgentName names "Finder" = some "Airbnb Agent - Finder" ∧
    resolveAgentName names "finder" = some "Airbnb Agent - Finder" ∧
    resolveAgentName names "seller agent" = some "Airbnb Agent - Finder" := by
  refine ⟨?_, ?_, ?_⟩
  · exact resolve_via_alias names "Finder" "Airbnb Agent - Finder" (by decide)
      (by decide) hmem (fun n hn => by
        rw [show lowerStr "Finder" = "finder" from rfl]; exact (hno n hn).1)
  · exact resolve_via_alias names "finder" "Airbnb Agent - Finder" (by decide)
      (by decide) hmem (fun n hn => by
        rw [show lowerStr "finder" = "finder" from rfl]; exact (hno n hn).1)
  · exact resolve_via_alias names "seller agent" "Airbnb Agent - Finder" (by decide)
      (by decide) hmem (fun n hn => by
        rw [show lowerStr "seller agent" = "seller agent" from rfl]
        exact (hno n hn).2)

/-- Witness for C6 at the demo registry. -/
theorem resolve_aliases_canonical_witness :
    resolveAgentName demoNames "Finder" = some "Airbnb Agent - Finder" ∧
    resolveAgentName demoNames "finder" = some "Airbnb Agent - Finder" ∧
    resolveAgentName demoNames "seller agent" = some "Airbnb Agent - Finder" :=
  resolve_aliases_canonical demoNames (by decide) (by decide)

/-! Claims about C7. -/

/-- The inline-authorization step never touches the feedback-record list. -/
theorem ensureAuth_records (env : Env) (ag : AgentState) (isres : Bool)
    (aid : Nat) :
    (ensureAuth env ag isres aid).2.1.feedback_records = ag.feedback_records := by
  unfold ensureAuth
  repeat' split
  all_goals rfl

/-- The rating stored in a built feedback record is the clamped rating scaled
to a percentage (routing_agent.py:505, 511). -/
theorem buildRecord_rating (env : Env) (ag : AgentState) (a : Option String)
    (resolved : String) (isres : Bool) (domain : String) (aid : Nat)
    (r : Int) (c : String) (st : SessionState) (fid : Option String) :
    (buildRecord env ag a resolved isres domain aid r c st fid).rating =
      max 0 (min 100 (r * 20)) :=
  rfl

/-- When the target resolves, `submit_feedback` appends exactly one record,
built by `buildRecord` from the clamped rating and the authorization state. -/
theorem submitFeedback_appends (env : Env) (ag : AgentState) (a : Option String)
    (rating : Int) (comment : String) (st : SessionState)
    (info : AgentInfo) (aid : Nat)
    (h1 : env.getAgentByDomain
      (feedbackTargetDomain env (isReserveName (resolvedOrEmpty env a))) = some info)
    (h2 : truthyNat info.agent_id = some aid) :
    (submitFeedback env ag a rating comment st).ag.feedback_records =
      ag.feedback_records ++
        [buildRecord env
          (ensureAuth env ag (isReserveName (resolvedOrEmpty env a)) aid).2.1
          a (resolvedOrEmpty env a) (isReserveName (resolvedOrEmpty env a))
          (feedbackTargetDomain env (isReserveName (resolvedOrEmpty env a))) aid
          (max 1 (min 5 rating)) comment st
          (ensureAuth env ag (isReserveName (resolvedOrEmpty env a)) aid).1] := by
  have hrec := ensureAuth_records env ag (isReserveName (resolvedOrEmpty env a)) aid
  unfold submitFeedback
  simp only [h1, h2]
  rcases he : ensureAuth env ag (isReserveName (resolvedOrEmpty env a)) aid with
    ⟨fid, ag1, calls⟩
  rw [he] at hrec
  dsimp only [] at hrec ⊢
  rw [hrec]

/-- C7: `leave_feedback` clamps the rating into `[1, 5]` and scales it by 20:
rating 7 appends a record with ratingPercent 100, rating 0 appends a record
with ratingPercent 20, provided the target resolves in the identity registry. -/
theorem leave_feedback_rating_clamped (env : Env) (ag : AgentState)
    (a : Option String) (comment : String) (st : SessionState)
    (info : AgentInfo) (aid : Nat)
    (h1 : env.getAgentByDomain
      (feedbackTargetDomain env (isReserveName (resolvedOrEmpty env a))) = some info)
    (h2 : truthyNat info.agent_id = some aid) :
    (∃ rec, (submitFeedback env ag a 7 comment st).ag.feedback_records =
        ag.feedback_records ++ [rec] ∧ rec.rating = 100) ∧
    (∃ rec, (submitFeedback env ag a 0 comment st).ag.feedback_records =
        ag.feedback_records ++ [rec] ∧ rec.rating = 20) := by
  constructor
  · exact ⟨_, submitFeedback_appends env ag a 7 comment st info aid h1 h2,
      by rw [buildRecord_rating]; decide⟩
  · exact ⟨_, submitFeedback_appends env ag a 0 comment st info aid h1 h2,
      by rw [buildRecord_rating]; decide⟩


/-- Witness for C7 at a concrete environment and the `Finder` alias. -/
theorem leave_feedback_rating_clamped_witness :
    (∃ rec, (submitFeedback feedbackEnv initAgentState (some "Finder") 7 "c"
        initSession).ag.feedback_records =
        initAgentState.feedback_records ++ [rec] ∧ rec.rating = 100) ∧
    (∃ rec, (submitFeedback feedbackEnv initAgentState (some "Finder") 0 "c"
        initSession).ag.feedback_records =
        initAgentState.feedback_records ++ [rec] ∧ rec.rating = 20) :=
  leave_feedback_rating_clamped feedbackEnv initAgentState (some "Finder") "c"
    initSession ⟨some 1, "d", "0xCAFE"⟩ 1 rfl rfl

/-! Claims about C8. -/

/-- Context-id assignment leaves the task-id store untouched. -/
theorem ctxAssign_task_ids (st : SessionState) (a : String) (sup : Nat) :
    (ctxAssign st a sup).2.1.task_ids_by_agent = st.task_ids_by_agent := by
  unfold ctxAssign
  split <;> rfl

/-- The state produced by the payload-building phase is exactly the state
after context-id assignment (active agent already recorded). -/
theorem sendCore_st (env : Env) (a rn task : String) (st : SessionState)
    (sup : Nat) :
    (sendCore env a rn task st sup).2.1 =
      (ctxAssign { st with active_agent := some rn } a sup).2.1 :=
  rfl

/-- C8: when the collaborator returns a non-success response or a success
whose result is not a concrete task, `send_message` returns `none` and the
stored task id for that agent is unchanged; only a success carrying a task
persists the returned task id into the store. -/
theorem send_message_result_shapes (env : Env) (a rn task : String)
    (st : SessionState) (sup : Nat)
    (hres : resolveAgentName env.names a = some rn) :
    ((env.sendTask rn (sendCore env a rn task st sup).1 = .nonSuccess ∨
      env.sendTask rn (sendCore env a rn task st sup).1 = .successNonTask) →
      (sendMessage env (some a) task st sup).result = .ok none ∧
      List.lookup a (sendMessage env (some a) task st sup).st.task_ids_by_agent =
        List.lookup a st.task_ids_by_agent) ∧
    (∀ t, env.sendTask rn (sendCore env a rn task st sup).1 = .success t →
      (sendMessage env (some a) task st sup).result = .ok (some t) ∧
      List.lookup a (sendMessage env (some a) task st sup).st.task_ids_by_agent =
        some t.id) := by
  unfold sendMessage
  simp only [resolveOpt, hres, Option.getD_some]
  constructor
  · rintro (h | h) <;> simp only [h] <;>
      exact ⟨by trivial, by rw [sendCore_st, ctxAssign_task_ids]⟩
  · intro t h
    simp only [h]
    exact ⟨by trivial, by simp [List.lookup]⟩


/-- Witness for C8: a successful task reply is returned and its id persisted. -/
theorem send_message_result_shapes_witness :
    (sendMessage taskEnv (some "Finder") "t" initSession 0).result =
      .ok (some ⟨"T1"⟩) ∧
    List.lookup "Finder"
      (sendMessage taskEnv (some "Finder") "t" initSession 0).st.task_ids_by_agent =
      some "T1" :=
  (send_message_result_shapes taskEnv "Finder" "Airbnb Agent - Finder" "t"
    initSession 0 (by decide)).2 ⟨"T1"⟩ rfl

/-! Claims about C3. -/

/-- Lookup after inserting the same key. -/
theorem lookup_cons_self {α β : Type} [BEq α] [LawfulBEq α] (a : α) (b : β)
    (l : List (α × β)) : List.lookup a ((a, b) :: l) = some b := by
  simp [List.lookup]

/-- Lookup skips an entry with a different key. -/
theorem lookup_cons_ne {α β : Type} [BEq α] [LawfulBEq α] (a k : α) (b : β)
    (l : List (α × β)) (h : a ≠ k) :
    List.lookup a ((k, b) :: l) = List.lookup a l := by
  simp only [List.lookup]
  rw [beq_false_of_ne h]

/-- A value found by lookup is among the stored values. -/
theorem lookup_mem_values (a : String) (c : Nat) :
    ∀ (m : List (String × Nat)), List.lookup a m = some c → c ∈ m.map Prod.snd := by
  intro m
  induction m with
  | nil => intro h; simp [List.lookup] at h
  | cons e t ih =>
      intro h
      rcases e with ⟨k, v⟩
      by_cases hk : a = k
      · subst hk
        rw [lookup_cons_self] at h
        injection h with h
        simp [h]
      · rw [lookup_cons_ne _ _ _ _ hk] at h
        simp [ih h]

/-- With pairwise-distinct stored values, lookups of two distinct keys cannot
agree. -/
theorem lookup_ne_of_values_nodup (a b : String) (ca cb : Nat) (hab : a ≠ b) :
    ∀ (m : List (String × Nat)), (m.map Prod.snd).Nodup →
      List.lookup a m = some ca → List.lookup b m = some cb → ca ≠ cb := by
  intro m
  induction m with
  | nil => intro _ ha _; simp [List.lookup] at ha
  | cons e t ih =>
      intro hnd ha hb
      rcases e with ⟨k, v⟩
      simp only [List.map_cons, List.nodup_cons] at hnd
      by_cases hak : a = k
      · subst hak
        rw [lookup_cons_self] at ha
        have hbk : b ≠ a := fun hh => hab hh.symm
        rw [lookup_cons_ne _ _ _ _ hbk] at hb
        have hmem := lookup_mem_values b cb t hb
        injection ha with ha
        intro heq
        exact hnd.1 (by rw [ha, heq]; exact hmem)
      · by_cases hbk : b = k
        · subst hbk
          rw [lookup_cons_self] at hb
          rw [lookup_cons_ne _ _ _ _ hak] at ha
          have hmem := lookup_mem_values a ca t ha
          injection hb with hb
          intro heq
          exact hnd.1 (by rw [hb, ← heq]; exact hmem)
        · rw [lookup_cons_ne _ _ _ _ hak] at ha
          rw [lookup_cons_ne _ _ _ _ hbk] at hb
          exact ih hnd.2 ha hb


/-- Context-id assignment when an id is already stored: nothing changes. -/
theorem ctxAssign_some (st : SessionState) (a : String) (sup c : Nat)
    (h : List.lookup a st.context_ids_by_agent = some c) :
    ctxAssign st a sup = (c, st, sup) := by
  unfold ctxAssign
  simp only [h]

/-- Context-id assignment on first access: the fresh uuid `sup` is returned
and stored, and the supply advances. -/
theorem ctxAssign_none (st : SessionState) (a : String) (sup : Nat)
    (h : List.lookup a st.context_ids_by_agent = none) :
    ctxAssign st a sup =
      (sup, { st with context_ids_by_agent := (a, sup) :: st.context_ids_by_agent },
       sup + 1) := by
  unfold ctxAssign
  simp only [h]

/-- On successful resolution, the outbound payload of `send_message` is the
one built by `sendCore`. -/
theorem sendMessage_payload (env : Env) (a rn task : String) (st : SessionState)
    (sup : Nat) (hres : resolveAgentName env.names a = some rn) :
    (sendMessage env (some a) task st sup).payload =
      some (sendCore env a rn task st sup).1 := by
  unfold sendMessage
  simp only [resolveOpt, hres, Option.getD_some]
  cases h : env.sendTask rn (sendCore env a rn task st sup).1 <;> simp only [h]

/-- The payload's context id is the one produced by the assignment step. -/
theorem sendCore_contextId (env : Env) (a rn task : String) (st : SessionState)
    (sup : Nat) :
    (sendCore env a rn task st sup).1.contextId =
      some (ctxAssign { st with active_agent := some rn } a sup).1 :=
  rfl

/-- The payload's task id is the stored one for the raw requested name,
subject to Python truthiness. -/
theorem sendCore_taskId (env : Env) (a rn task : String) (st : SessionState)
    (sup : Nat) :
    (sendCore env a rn task st sup).1.taskId =
      truthyStr (List.lookup a st.task_ids_by_agent) :=
  rfl

/-- The context-id store after a `send_message` call is the one left by the
assignment step, regardless of the collaborator's reply. -/
theorem sendMessage_ctx_map (env : Env) (a rn task : String) (st : SessionState)
    (sup : Nat) (hres : resolveAgentName env.names a = some rn) :
    (sendMessage env (some a) task st sup).st.context_ids_by_agent =
      (ctxAssign { st with active_agent := some rn } a sup).2.1.context_ids_by_agent := by
  unfold sendMessage
  simp only [resolveOpt, hres, Option.getD_some]
  cases h : env.sendTask rn (sendCore env a rn task st sup).1 <;> simp only [h] <;> rfl

/-- The uuid supply never decreases across a `send_message` call. -/
theorem sendMessage_supply_ge (env : Env) (a rn task : String) (st : SessionState)
    (sup : Nat) (hres : resolveAgentName env.names a = some rn) :
    (ctxAssign { st with active_agent := some rn } a sup).2.2 ≤
      (sendMessage env (some a) task st sup).supply := by
  unfold sendMessage
  simp only [resolveOpt, hres, Option.getD_some]
  cases h : env.sendTask rn (sendCore env a rn task st sup).1 <;> simp only [h] <;>
    · show (ctxAssign { st with active_agent := some rn } a sup).2.2 ≤
        (sendCore env a rn task st sup).2.2
      unfold sendCore
      dsimp only []
      split <;> omega

/-- A looked-up value respects a bound holding for all stored values. -/
theorem lookup_lt_of_bound (m : List (String × Nat)) (a : String) (c sup : Nat)
    (hb : ∀ p ∈ m, p.2 < sup) (h : List.lookup a m = some c) : c < sup := by
  have hm := lookup_mem_values a c m h
  rcases List.mem_map.mp hm with ⟨p, hp, hpc⟩
  exact hpc ▸ hb p hp


/-- Two `send_message` calls with distinct requested names receive distinct
context ids, under the supply invariant. -/
theorem sendMessage_ctx_distinct (env : Env) (a b rna rnb ta tb : String)
    (st : SessionState) (sup : Nat) (pa pb : Payload) (hab : a ≠ b)
    (hra : resolveAgentName env.names a = some rna)
    (hrb : resolveAgentName env.names b = some rnb)
    (hinv : CtxInv st sup)
    (hpa : (sendMessage env (some a) ta st sup).payload = some pa)
    (hpb : (sendMessage env (some b) tb (sendMessage env (some a) ta st sup).st
      (sendMessage env (some a) ta st sup).supply).payload = some pb) :
    pa.contextId ≠ pb.contextId := by
  have hpa' := sendMessage_payload env a rna ta st sup hra
  rw [hpa'] at hpa
  injection hpa with hpa
  have hpb' := sendMessage_payload env b rnb tb
    (sendMessage env (some a) ta st sup).st
    (sendMessage env (some a) ta st sup).supply hrb
  rw [hpb'] at hpb
  injection hpb with hpb
  have hca : pa.contextId =
      some (ctxAssign { st with active_agent := some rna } a sup).1 := by
    rw [← hpa]; exact sendCore_contextId env a rna ta st sup
  have hcb : pb.contextId =
      some (ctxAssign
        { (sendMessage env (some a) ta st sup).st with active_agent := some rnb } b
        (sendMessage env (some a) ta st sup).supply).1 := by
    rw [← hpb]; exact sendCore_contextId env b rnb tb _ _
  rw [hca, hcb]
  simp only [ne_eq, Option.some.injEq]
  have hmap := sendMessage_ctx_map env a rna ta st sup hra
  have hsup := sendMessage_supply_ge env a rna ta st sup hra
  cases hla : List.lookup a st.context_ids_by_agent with
  | some ca =>
      have hA := ctxAssign_some { st with active_agent := some rna } a sup ca hla
      rw [hA] at hmap hsup
      dsimp only [] at hmap hsup
      cases hlb : List.lookup b st.context_ids_by_agent with
      | some cb =>
          have hB := ctxAssign_some
            { (sendMessage env (some a) ta st sup).st with active_agent := some rnb }
            b (sendMessage env (some a) ta st sup).supply cb
            (by show List.lookup b
                  (sendMessage env (some a) ta st sup).st.context_ids_by_agent = some cb
                rw [hmap]; exact hlb)
          rw [hA, hB]
          dsimp only []
          exact lookup_ne_of_values_nodup a b ca cb hab
            st.context_ids_by_agent hinv.2 hla hlb
      | none =>
          have hB := ctxAssign_none
            { (sendMessage env (some a) ta st sup).st with active_agent := some rnb }
            b (sendMessage env (some a) ta st sup).supply
            (by show List.lookup b
                  (sendMessage env (some a) ta st sup).st.context_ids_by_agent = none
                rw [hmap]; exact hlb)
          rw [hA, hB]
          dsimp only []
          have hlt := lookup_lt_of_bound st.context_ids_by_agent a ca sup hinv.1 hla
          omega
  | none =>
      have hA := ctxAssign_none { st with active_agent := some rna } a sup hla
      rw [hA] at hmap hsup
      dsimp only [] at hmap hsup
      cases hlb : List.lookup b st.context_ids_by_agent with
      | some cb =>
          have hB := ctxAssign_some
            { (sendMessage env (some a) ta st sup).st with active_agent := some rnb }
            b (sendMessage env (some a) ta st sup).supply cb
            (by show List.lookup b
                  (sendMessage env (some a) ta st sup).st.context_ids_by_agent = some cb
                rw [hmap]
                rw [lookup_cons_ne _ _ _ _ (fun hh => hab hh.symm)]
                exact hlb)
          rw [hA, hB]
          dsimp only []
          have hlt := lookup_lt_of_bound st.context_ids_by_agent b cb sup hinv.1 hlb
          omega
      | none =>
          have hB := ctxAssign_none
            { (sendMessage env (some a) ta st sup).st with active_agent := some rnb }
            b (sendMessage env (some a) ta st sup).supply
            (by show List.lookup b
                  (sendMessage env (some a) ta st sup).st.context_ids_by_agent = none
                rw [hmap]
                rw [lookup_cons_ne _ _ _ _ (fun hh => hab hh.symm)]
                exact hlb)
          rw [hA, hB]
          dsimp only []
          omega

/-- C3: within one session, the context id `send_message` uses for a given
requested agent name is drawn fresh on the first call for that name, is
returned unchanged by every subsequent call for that name, and two distinct
agent names never share a context id (under the supply invariant `CtxInv`,
which encodes the freshness of `uuid.uuid4`). -/
theorem send_message_context_ids (env : Env) :
    (∀ a rn task st sup, resolveAgentName env.names a = some rn →
      List.lookup a st.context_ids_by_agent = none →
      (∃ p, (sendMessage env (some a) task st sup).payload = some p ∧
        p.contextId = some sup) ∧
      List.lookup a
        (sendMessage env (some a) task st sup).st.context_ids_by_agent = some sup) ∧
    (∀ a rn task st sup c, resolveAgentName env.names a = some rn →
      List.lookup a st.context_ids_by_agent = some c →
      (∃ p, (sendMessage env (some a) task st sup).payload = some p ∧
        p.contextId = some c) ∧
      List.lookup a
        (sendMessage env (some a) task st sup).st.context_ids_by_agent = some c) ∧
    (∀ a b rna rnb ta tb st sup pa pb, a ≠ b →
      resolveAgentName env.names a = some rna →
      resolveAgentName env.names b = some rnb →
      CtxInv st sup →
      (sendMessage env (some a) ta st sup).payload = some pa →
      (sendMessage env (some b) tb (sendMessage env (some a) ta st sup).st
        (sendMessage env (some a) ta st sup).supply).payload = some pb →
      pa.contextId ≠ pb.contextId) := by
  refine ⟨?_, ?_, ?_⟩
  · intro a rn task st sup hres hla
    constructor
    · refine ⟨_, sendMessage_payload env a rn task st sup hres, ?_⟩
      rw [sendCore_contextId,
        ctxAssign_none { st with active_agent := some rn } a sup hla]
    · rw [sendMessage_ctx_map env a rn task st sup hres,
        ctxAssign_none { st with active_agent := some rn } a sup hla]
      exact lookup_cons_self _ _ _
  · intro a rn task st sup c hres hla
    constructor
    · refine ⟨_, sendMessage_payload env a rn task st sup hres, ?_⟩
      rw [sendCore_contextId,
        ctxAssign_some { st with active_agent := some rn } a sup c hla]
    · rw [sendMessage_ctx_map env a rn task st sup hres,
        ctxAssign_some { st with active_agent := some rn } a sup c hla]
      exact hla
  · exact fun a b rna rnb ta tb st sup pa pb hab hra hrb hinv hpa hpb =>
      sendMessage_ctx_distinct env a b rna rnb ta tb st sup pa pb hab hra hrb hinv hpa hpb

/-- Witness for C3: the first call for `Finder` draws context id 0 and a
second call for the same name reuses exactly that id. -/
theorem send_message_context_ids_witness :
    (∃ p, (sendMessage trivEnv (some "Finder") "t" initSession 0).payload = some p ∧
      p.contextId = some 0) ∧
    (∃ p, (sendMessage trivEnv (some "Finder") "u"
        (sendMessage trivEnv (some "Finder") "t" initSession 0).st
        (sendMessage trivEnv (some "Finder") "t" initSession 0).supply).payload =
          some p ∧
      p.contextId = some 0) :=
  ⟨((send_message_context_ids trivEnv).1 "Finder" "Airbnb Agent - Finder" "t"
      initSession 0 (by decide) rfl).1,
   ((send_message_context_ids trivEnv).2.1 "Finder" "Airbnb Agent - Finder" "u"
      (sendMessage trivEnv (some "Finder") "t" initSession 0).st
      (sendMessage trivEnv (some "Finder") "t" initSession 0).supply 0 (by decide)
      ((send_message_context_ids trivEnv).1 "Finder" "Airbnb Agent - Finder" "t"
        initSession 0 (by decide) rfl).2).1⟩

/-! Claims about C9. -/

/-- A `send_message` call for requested name `a` never touches the stored
task id of a different requested name `b`. -/
theorem sendMessage_task_lookup_other (env : Env) (a rn task : String)
    (st : SessionState) (sup : Nat) (b : String)
    (hres : resolveAgentName env.names a = some rn) (hab : b ≠ a) :
    List.lookup b (sendMessage env (some a) task st sup).st.task_ids_by_agent =
      List.lookup b st.task_ids_by_agent := by
  unfold sendMessage
  simp only [resolveOpt, hres, Option.getD_some]
  cases h : env.sendTask rn (sendCore env a rn task st sup).1 with
  | success t =>
      simp only [h]
      show List.lookup b
        ((a, t.id) :: (sendCore env a rn task st sup).2.1.task_ids_by_agent) = _
      rw [lookup_cons_ne _ _ _ _ hab, sendCore_st, ctxAssign_task_ids]
  | raised e =>
      simp only [h]
      show List.lookup b (sendCore env a rn task st sup).2.1.task_ids_by_agent = _
      rw [sendCore_st, ctxAssign_task_ids]
  | nonSuccess =>
      simp only [h]
      show List.lookup b (sendCore env a rn task st sup).2.1.task_ids_by_agent = _
      rw [sendCore_st, ctxAssign_task_ids]
  | successNonTask =>
      simp only [h]
      show List.lookup b (sendCore env a rn task st sup).2.1.task_ids_by_agent = _
      rw [sendCore_st, ctxAssign_task_ids]

/-- C9: `send_message` keys its task-id and context-id correlation maps by the
raw requested agent-name string, not by the resolved canonical name: two
distinct requested strings resolving to the same remote agent `rn` get
distinct context ids, and the second request does not inherit the first
request's remembered task id (its payload carries no task id at all when the
raw name `b` has none stored). -/
theorem send_message_keyed_by_raw_name (env : Env) (a b rn ta tb : String)
    (st : SessionState) (sup : Nat) (pa pb : Payload) (hab : a ≠ b)
    (hra : resolveAgentName env.names a = some rn)
    (hrb : resolveAgentName env.names b = some rn)
    (hinv : CtxInv st sup)
    (htb : List.lookup b st.task_ids_by_agent = none)
    (hpa : (sendMessage env (some a) ta st sup).payload = some pa)
    (hpb : (sendMessage env (some b) tb (sendMessage env (some a) ta st sup).st
      (sendMessage env (some a) ta st sup).supply).payload = some pb) :
    pb.taskId = none ∧ pa.contextId ≠ pb.contextId := by
  constructor
  · have hpb' := sendMessage_payload env b rn tb
      (sendMessage env (some a) ta st sup).st
      (sendMessage env (some a) ta st sup).supply hrb
    rw [hpb'] at hpb
    injection hpb with hpb
    rw [← hpb, sendCore_taskId,
      sendMessage_task_lookup_other env a rn ta st sup b hra (fun hh => hab hh.symm),
      htb]
    rfl
  · exact sendMessage_ctx_distinct env a b rn rn ta tb st sup pa pb hab hra hrb
      hinv hpa hpb

/-- Witness for C9: requests `finder` (alias) and `Airbnb Agent - Finder`
(canonical) resolve to the same remote agent but receive distinct context ids
and do not share a task id, in an environment whose remote always returns
task `T1`. -/
theorem send_message_keyed_by_raw_name_witness :
    ((sendMessage taskEnv (some "Airbnb Agent - Finder") "u"
        (sendMessage taskEnv (some "finder") "t" initSession 0).st
        (sendMessage taskEnv (some "finder") "t" initSession 0).supply).payload.map
      Payload.taskId = some none) ∧
    ((sendMessage taskEnv (some "finder") "t" initSession 0).payload.map
        Payload.contextId ≠
      (sendMessage taskEnv (some "Airbnb Agent - Finder") "u"
        (sendMessage taskEnv (some "finder") "t" initSession 0).st
        (sendMessage taskEnv (some "finder") "t" initSession 0).supply).payload.map
      Payload.contextId) := by
  have h := send_message_keyed_by_raw_name taskEnv "finder" "Airbnb Agent - Finder"
    "Airbnb Agent - Finder" "t" "u" initSession 0
    ((sendMessage taskEnv (some "finder") "t" initSession 0).payload.get (by decide))
    ((sendMessage taskEnv (some "Airbnb Agent - Finder") "u"
        (sendMessage taskEnv (some "finder") "t" initSession 0).st
        (sendMessage taskEnv (some "finder") "t" initSession 0).supply).payload.get
      (by decide))
    (by decide) (by decide) (by decide) ⟨by simp [initSession], by simp [initSession]⟩
    rfl (by decide) (by decide)
  constructor
  · rw [show (sendMessage taskEnv (some "Airbnb Agent - Finder") "u"
        (sendMessage taskEnv (some "finder") "t" initSession 0).st
        (sendMessage taskEnv (some "finder") "t" initSession 0).supply).payload =
      some ((sendMessage taskEnv (some "Airbnb Agent - Finder") "u"
        (sendMessage taskEnv (some "finder") "t" initSession 0).st
        (sendMessage taskEnv (some "finder") "t" initSession 0).supply).payload.get
        (by decide)) from (by decide), Option.map_some']
    rw [h.1]
  · intro hc
    apply h.2
    rw [show (sendMessage taskEnv (some "finder") "t" initSession 0).payload =
        some ((sendMessage taskEnv (some "finder") "t" initSession 0).payload.get
          (by decide)) from (by decide),
      show (sendMessage taskEnv (some "Airbnb Agent - Finder") "u"
        (sendMessage taskEnv (some "finder") "t" initSession 0).st
        (sendMessage taskEnv (some "finder") "t" initSession 0).supply).payload =
      some ((sendMessage taskEnv (some "Airbnb Agent - Finder") "u"
        (sendMessage taskEnv (some "finder") "t" initSession 0).st
        (sendMessage taskEnv (some "finder") "t" initSession 0).supply).payload.get
        (by decide)) from (by decide), Option.map_some'] at hc
    injection hc

/-! Claims about C4. -/


/-- Counterexample to C4 as stated: over three `send_message` calls to
`Finder`, the first successful call returns task id `T1`, yet the third
call's outbound payload carries `taskId = T2` — the code persists the most
recently returned task id, not the first one. -/
theorem send_message_task_id_pinned_cex :
    ((sendSeq echoEnv (some "Finder") ["a", "b", "c"] initSession 0).1.map
        (fun r => r.payload.map Payload.taskId)) =
      [some none, some (some "T1"), some (some "T2")] ∧
    ((sendSeq echoEnv (some "Finder") ["a", "b", "c"] initSession 0).1.map
        SendOutcome.result) =
      [.ok (some ⟨"T1"⟩), .ok (some ⟨"T2"⟩), .ok (some ⟨"T2"⟩)] ∧
    (some "T2" : Option String) ≠ some "T1" := by
  refine ⟨rfl, rfl, by decide⟩

/-- One `send_message` call keeps the stored task id `T` for the requested
name when every success reply of the collaborator carries id `T`. -/
theorem sendMessage_task_lookup_self (env : Env) (a rn task T : String)
    (st : SessionState) (sup : Nat)
    (hres : resolveAgentName env.names a = some rn)
    (hEcho : ∀ p t, env.sendTask rn p = .success t → t.id = T)
    (h0 : List.lookup a st.task_ids_by_agent = some T) :
    List.lookup a (sendMessage env (some a) task st sup).st.task_ids_by_agent =
      some T := by
  unfold sendMessage
  simp only [resolveOpt, hres, Option.getD_some]
  cases h : env.sendTask rn (sendCore env a rn task st sup).1 with
  | success t =>
      simp only [h]
      show List.lookup a
        ((a, t.id) :: (sendCore env a rn task st sup).2.1.task_ids_by_agent) = some T
      rw [hEcho _ t h, lookup_cons_self]
  | raised e =>
      simp only [h]
      show List.lookup a (sendCore env a rn task st sup).2.1.task_ids_by_agent = some T
      rw [sendCore_st, ctxAssign_task_ids]; exact h0
  | nonSuccess =>
      simp only [h]
      show List.lookup a (sendCore env a rn task st sup).2.1.task_ids_by_agent = some T
      rw [sendCore_st, ctxAssign_task_ids]; exact h0
  | successNonTask =>
      simp only [h]
      show List.lookup a (sendCore env a rn task st sup).2.1.task_ids_by_agent = some T
      rw [sendCore_st, ctxAssign_task_ids]; exact h0

/-- C4 (amended): every subsequent call's outbound payload carries the most
recently persisted task id.  In particular, once `T` is stored for the
requested name (as after the first successful call) and every success reply
keeps returning `T`, every later payload for that agent includes
`taskId = T`, and the store still holds `T` afterwards. -/
theorem send_message_task_id_latest (env : Env) (a rn T : String)
    (hres : resolveAgentName env.names a = some rn) (hT : T ≠ "")
    (hEcho : ∀ p t, env.sendTask rn p = .success t → t.id = T) :
    ∀ (tasks : List String) (st : SessionState) (sup : Nat),
      List.lookup a st.task_ids_by_agent = some T →
      (∀ r ∈ (sendSeq env (some a) tasks st sup).1, ∀ p, r.payload = some p →
        p.taskId = some T) ∧
      List.lookup a
        (sendSeq env (some a) tasks st sup).2.1.task_ids_by_agent = some T := by
  intro tasks
  induction tasks with
  | nil =>
      intro st sup h0
      exact ⟨by simp [sendSeq], by simpa [sendSeq] using h0⟩
  | cons t ts ih =>
      intro st sup h0
      have hpay := sendMessage_payload env a rn t st sup hres
      have htask : (sendCore env a rn t st sup).1.taskId = some T := by
        rw [sendCore_taskId, h0]
        simp [truthyStr, hT]
      have hpost := sendMessage_task_lookup_self env a rn t T st sup hres hEcho h0
      have hrest := ih (sendMessage env (some a) t st sup).st
        (sendMessage env (some a) t st sup).supply hpost
      constructor
      · intro r hr p hp
        rw [show (sendSeq env (some a) (t :: ts) st sup).1 =
            sendMessage env (some a) t st sup ::
              (sendSeq env (some a) ts (sendMessage env (some a) t st sup).st
                (sendMessage env (some a) t st sup).supply).1 from rfl] at hr
        rcases List.mem_cons.mp hr with heq | hmem
        · subst heq
          rw [hpay] at hp
          injection hp with hp
          rw [← hp]
          exact htask
        · exact hrest.1 r hmem p hp
      · exact hrest.2


/-- Witness for the amended C4: with a remote that always returns `T1`, both
subsequent payloads carry `taskId = T1` and the store still holds `T1`. -/
theorem send_message_task_id_latest_witness :
    (∀ r ∈ (sendSeq taskEnv (some "Finder") ["x", "y"] stT1 0).1,
      ∀ p, r.payload = some p → p.taskId = some "T1") ∧
    List.lookup "Finder"
      (sendSeq taskEnv (some "Finder") ["x", "y"] stT1 0).2.1.task_ids_by_agent =
      some "T1" :=
  send_message_task_id_latest taskEnv "Finder" "Airbnb Agent - Finder" "T1"
    (by decide) (by decide)
    (fun p t h => by injection h with h; rw [← h]) ["x", "y"] stT1 0 rfl

/-! Claims about C2. -/

/-- ensureAuth with a cold cache and fully successful collaborators: one
authorization call, the returned feedbackAuthId cached under the target id,
records untouched. -/
theorem ensureAuth_success (env : Env) (ag : AgentState) (isres : Bool)
    (tid : Nat) (cinfo : AgentInfo) (cid : Nat) (ares : AuthResult) (fid : String)
    (h3 : List.lookup tid ag.authorized_feedback_auth_id_by_target_id = none)
    (h4 : env.getAgentByDomain (assistantDomain env) = some cinfo)
    (h5 : truthyNat cinfo.agent_id = some cid)
    (h6 : env.authorizeFeedback cid tid (serverPkFeedback env isres) = some ares)
    (h7 : truthyStr ares.feedback_auth_id = some fid) :
    (ensureAuth env ag isres tid).1 = some fid ∧
    (ensureAuth env ag isres tid).2.2 = 1 ∧
    (ensureAuth env ag isres tid).2.1.authorized_feedback_auth_id_by_target_id =
      (tid, fid) :: ag.authorized_feedback_auth_id_by_target_id := by
  unfold ensureAuth
  simp only [h3, h4, h5, h6, h7]
  refine ⟨?_, ?_, ?_⟩ <;> trivial

/-- ensureAuth with a warm cache: no authorization call, state unchanged. -/
theorem ensureAuth_hit (env : Env) (ag : AgentState) (isres : Bool) (tid : Nat)
    (fid : String)
    (h : List.lookup tid ag.authorized_feedback_auth_id_by_target_id = some fid) :
    ensureAuth env ag isres tid = (some fid, ag, 0) := by
  unfold ensureAuth
  simp only [h]

/-- The number of adapter authorization calls a `submit_feedback` invocation
makes is exactly the number its inline-authorization step makes. -/
theorem submitFeedback_authCalls (env : Env) (ag : AgentState) (a : Option String)
    (r : Int) (c : String) (st : SessionState) (info : AgentInfo) (aid : Nat)
    (h1 : env.getAgentByDomain
      (feedbackTargetDomain env (isReserveName (resolvedOrEmpty env a))) = some info)
    (h2 : truthyNat info.agent_id = some aid) :
    (submitFeedback env ag a r c st).authCalls =
      (ensureAuth env ag (isReserveName (resolvedOrEmpty env a)) aid).2.2 := by
  unfold submitFeedback
  simp only [h1, h2]

/-- Appending the feedback record leaves the authorization cache as the
inline-authorization step left it. -/
theorem submitFeedback_cache (env : Env) (ag : AgentState) (a : Option String)
    (r : Int) (c : String) (st : SessionState) (info : AgentInfo) (aid : Nat)
    (h1 : env.getAgentByDomain
      (feedbackTargetDomain env (isReserveName (resolvedOrEmpty env a))) = some info)
    (h2 : truthyNat info.agent_id = some aid) :
    (submitFeedback env ag a r c st).ag.authorized_feedback_auth_id_by_target_id =
      (ensureAuth env ag (isReserveName (resolvedOrEmpty env a))
        aid).2.1.authorized_feedback_auth_id_by_target_id := by
  unfold submitFeedback
  simp only [h1, h2]

/-- A truthy feedbackAuthId is a nonempty string. -/
theorem truthyStr_ne_empty (x : Option String) (fid : String)
    (h : truthyStr x = some fid) : fid ≠ "" := by
  cases x with
  | none => simp [truthyStr] at h
  | some s =>
      by_cases hs : s = "" <;> simp [truthyStr, hs] at h
      exact h ▸ hs

/-- A record built from a present (nonempty) feedbackAuthId keeps it. -/
theorem buildRecord_fid (env : Env) (ag : AgentState) (a : Option String)
    (resolved : String) (isres : Bool) (domain : String) (aid : Nat)
    (r : Int) (c : String) (st : SessionState) (fid : String) (hf : fid ≠ "") :
    (buildRecord env ag a resolved isres domain aid r c st
      (some fid)).feedbackAuthId = some fid := by
  unfold buildRecord
  simp [truthyStr, hf]


/-- Counterexample to C2 as stated: with a failing authorization transaction,
two consecutive `leave_feedback` calls for the same target invoke the
external authorization operation twice, not exactly once — nothing was
cached after the failed first attempt. -/
theorem submit_feedback_single_auth_cex :
    (submitFeedback authFailEnv initAgentState (some "Finder") 5 "c"
        initSession).authCalls +
      (submitFeedback authFailEnv
        (submitFeedback authFailEnv initAgentState (some "Finder") 5 "c"
          initSession).ag
        (some "Finder") 5 "c" initSession).authCalls = 2 ∧
    2 ≠ 1 :=
  ⟨rfl, by decide⟩

/-- C2 (amended): when the first invocation's authorization succeeds and
returns a feedbackAuthId, two consecutive `leave_feedback` calls for the same
target invoke the external authorization operation exactly once — the first
call makes the single call and caches the id under the target's registry id,
the second call makes none and its appended record reuses the cached id. -/
theorem submit_feedback_auth_cached_once (env : Env) (ag : AgentState)
    (a : Option String) (r1 r2 : Int) (c1 c2 : String) (st : SessionState)
    (tinfo cinfo : AgentInfo) (tid cid : Nat) (ares : AuthResult) (fid : String)
    (h1 : env.getAgentByDomain
      (feedbackTargetDomain env (isReserveName (resolvedOrEmpty env a))) = some tinfo)
    (h2 : truthyNat tinfo.agent_id = some tid)
    (h3 : List.lookup tid ag.authorized_feedback_auth_id_by_target_id = none)
    (h4 : env.getAgentByDomain (assistantDomain env) = some cinfo)
    (h5 : truthyNat cinfo.agent_id = some cid)
    (h6 : env.authorizeFeedback cid tid
      (serverPkFeedback env (isReserveName (resolvedOrEmpty env a))) = some ares)
    (h7 : truthyStr ares.feedback_auth_id = some fid) :
    (submitFeedback env ag a r1 c1 st).authCalls = 1 ∧
    (submitFeedback env (submitFeedback env ag a r1 c1 st).ag a r2 c2
      st).authCalls = 0 ∧
    (∃ rec, (submitFeedback env (submitFeedback env ag a r1 c1 st).ag a r2 c2
        st).ag.feedback_records =
      (submitFeedback env ag a r1 c1 st).ag.feedback_records ++ [rec] ∧
      rec.feedbackAuthId = some fid) := by
  have hEA := ensureAuth_success env ag (isReserveName (resolvedOrEmpty env a))
    tid cinfo cid ares fid h3 h4 h5 h6 h7
  have hlook : List.lookup tid
      (submitFeedback env ag a r1 c1
        st).ag.authorized_feedback_auth_id_by_target_id = some fid := by
    rw [submitFeedback_cache env ag a r1 c1 st tinfo tid h1 h2, hEA.2.2]
    exact lookup_cons_self _ _ _
  have hhit := ensureAuth_hit env (submitFeedback env ag a r1 c1 st).ag
    (isReserveName (resolvedOrEmpty env a)) tid fid hlook
  refine ⟨?_, ?_, ?_⟩
  · rw [submitFeedback_authCalls env ag a r1 c1 st tinfo tid h1 h2, hEA.2.1]
  · rw [submitFeedback_authCalls env (submitFeedback env ag a r1 c1 st).ag a r2 c2
      st tinfo tid h1 h2, hhit]
  · have happ := submitFeedback_appends env (submitFeedback env ag a r1 c1 st).ag
      a r2 c2 st tinfo tid h1 h2
    rw [hhit] at happ
    exact ⟨_, happ,
      buildRecord_fid env (submitFeedback env ag a r1 c1 st).ag a
        (resolvedOrEmpty env a) (isReserveName (resolvedOrEmpty env a))
        (feedbackTargetDomain env (isReserveName (resolvedOrEmpty env a))) tid
        (max 1 (min 5 r2)) c2 st fid
        (truthyStr_ne_empty ares.feedback_auth_id fid h7)⟩


/-- Witness for the amended C2 at a concrete successful environment. -/
theorem submit_feedback_auth_cached_once_witness :
    (submitFeedback authOkEnv initAgentState (some "Finder") 4 "c1"
        initSession).authCalls = 1 ∧
    (submitFeedback authOkEnv
      (submitFeedback authOkEnv initAgentState (some "Finder") 4 "c1"
        initSession).ag
      (some "Finder") 5 "c2" initSession).authCalls = 0 ∧
    (∃ rec, (submitFeedback authOkEnv
        (submitFeedback authOkEnv initAgentState (some "Finder") 4 "c1"
          initSession).ag
        (some "Finder") 5 "c2" initSession).ag.feedback_records =
      (submitFeedback authOkEnv initAgentState (some "Finder") 4 "c1"
        initSession).ag.feedback_records ++ [rec] ∧
      rec.feedbackAuthId = some "FID") :=
  submit_feedback_auth_cached_once authOkEnv initAgentState (some "Finder") 4 5
    "c1" "c2" initSession ⟨some 1, "d", "0xA"⟩ ⟨some 1, "d", "0xA"⟩ 1 1
    ⟨"0xTX", some "FID", some "0xA"⟩ "FID" rfl rfl rfl rfl rfl rfl rfl
